import Mathlib

/-!
Shallow embedding of the HealthCost-AI supervisor pipeline
(src/agents/supervisor.py, src/tools/medical_tools.py,
src/agents/cost_estimator.py) and proofs about it.

Strings are modelled through their character lists; Python string
containment (`in`), `str.lower` and `str.strip` are embedded as
executable functions over `List Char` (ASCII-faithful, which covers
every vocabulary table and every query in the claims).  A Python
function that may raise is embedded as an `Except String`-valued
function: `Except.error` is a raised exception, `Except.ok` a normal
return.
-/

namespace HealthCost

/-- Model of Python `needle in haystack` prefix step: does `needle`
lead `haystack`? -/
def leadsList : List Char → List Char → Bool
  | [], _ => true
  | _ :: _, [] => false
  | n :: ns, h :: hs => n == h && leadsList ns hs

/-- Model of Python `needle in haystack` (substring containment). -/
def occursIn (needle : List Char) : List Char → Bool
  | [] => leadsList needle []
  | h :: hs => leadsList needle (h :: hs) || occursIn needle hs

/-- Python `needle in haystack` on strings. -/
def strIn (needle haystack : String) : Bool :=
  occursIn needle.data haystack.data

/-- Python `str.lower` (ASCII; `Char.toLower` maps only A-Z, which is
all the vocabulary tables and claim inputs use). -/
def lowerStr (s : String) : String :=
  ⟨s.data.map Char.toLower⟩

/-- The whitespace characters Python `str.strip` removes (ASCII). -/
def isSpaceChar (c : Char) : Bool :=
  c == ' ' || c == '\t' || c == '\n' || c == '\r' || c == '\x0b' || c == '\x0c'

/-- Drop leading whitespace characters. -/
def dropLeading : List Char → List Char
  | [] => []
  | c :: cs => if isSpaceChar c then dropLeading cs else c :: cs

/-- Python `str.strip`: drop leading and trailing whitespace. -/
def trimStr (s : String) : String :=
  ⟨(dropLeading (dropLeading s.data.reverse).reverse)⟩

/-! ## MedicalTools (src/tools/medical_tools.py) -/

/-- The fixed ordered disease vocabulary of
`MedicalTools.extract_disease_from_query` (lines 74-84). -/
def diseases : List String :=
  ["diabetes", "hypertension", "asthma", "heart disease", "cancer",
   "kidney disease", "liver disease", "arthritis", "thyroid"]

/-- `MedicalTools.extract_disease_from_query` (lines 68-89): first
disease of the fixed list contained in the lower-cased query, else the
sentinel "general". -/
def extract_disease_from_query (query : String) : String :=
  let q := lowerStr query
  match diseases.find? (fun d => strIn d q) with
  | some d => d
  | none => "general"

/-- The fixed alias → canonical-city table of
`MedicalTools.extract_location_from_query` (lines 49-60), in Python
dict insertion order (Python 3.7+ dicts iterate in insertion order). -/
def cities : List (String × String) :=
  [("delhi", "Delhi"), ("mumbai", "Mumbai"), ("bombay", "Mumbai"),
   ("bangalore", "Bangalore"), ("bengaluru", "Bangalore"),
   ("hyderabad", "Hyderabad"), ("pune", "Pune"), ("kolkata", "Kolkata"),
   ("chennai", "Chennai"), ("ncr", "Delhi")]

/-- `MedicalTools.extract_location_from_query` (lines 44-66): canonical
city of the first alias (in table order) contained in the lower-cased
query, else `none`. -/
def extract_location_from_query (query : String) : Option String :=
  let q := lowerStr query
  match cities.find? (fun kv => strIn kv.1 q) with
  | some kv => some kv.2
  | none => none

/-! ## SupervisorAgent intent classification (src/agents/supervisor.py) -/

/-- Keyword set of `SupervisorAgent._needs_health_info` (line 24). -/
def healthKeywords : List String :=
  ["what is", "symptom", "symptoms", "disease", "bimari", "health", "info"]

/-- Keyword set of `SupervisorAgent._needs_hospital` (line 29). -/
def hospitalKeywords : List String :=
  ["hospital", "doctor", "where", "best hospital", "admit", "treatment"]

/-- Keyword set of `SupervisorAgent._needs_cost` (line 34). -/
def costKeywords : List String :=
  ["cost", "price", "kitna", "kharcha", "expense", "fees", "charges"]

/-- `SupervisorAgent._needs_health_info` (lines 23-26). -/
def needs_health_info (query : String) : Bool :=
  let q := lowerStr query
  healthKeywords.any (fun k => strIn k q)

/-- `SupervisorAgent._needs_hospital` (lines 28-31). -/
def needs_hospital (query : String) : Bool :=
  let q := lowerStr query
  hospitalKeywords.any (fun k => strIn k q)

/-- `SupervisorAgent._needs_cost` (lines 33-36). -/
def needs_cost (query : String) : Bool :=
  let q := lowerStr query
  costKeywords.any (fun k => strIn k q)

/-! ## Collaborator result shapes (the dicts the three agents return,
as consumed by `SupervisorAgent.process`) -/

/-- Result dict of `HealthAdvisorAgent.get_disease_info` as read by the
supervisor: only `status` and `information` are accessed. -/
structure HealthResult where
  status : String
  information : String
  deriving DecidableEq

/-- One hospital dict as rendered by the supervisor (lines 79-83).
`htype` embeds the dict key "type". -/
structure Hospital where
  name : String
  city : String
  state : String
  htype : String
  specialties : String
  beds : Int
  contact : String
  deriving DecidableEq

/-- Result dict of `HospitalFinderAgent.find_hospitals` as read by the
supervisor: `status` and the ordered `hospitals` list. -/
structure HospitalResult where
  status : String
  hospitals : List Hospital
  deriving DecidableEq

/-- The `summary` sub-dict of the cost collaborator result, with each
value already rendered to the text the f-string interpolates. -/
structure CostSummary where
  annual_medicines : String
  annual_opd_visits : String
  hospitalization : String
  estimated_annual_total : String
  deriving DecidableEq

/-- Result dict of `CostEstimatorAgent.estimate_total_healthcare_cost`
as read by the supervisor: `status` and `summary`. -/
structure CostResult where
  status : String
  summary : CostSummary
  deriving DecidableEq

/-- The three collaborator calls `process` makes, as functions.  An
`Except.error` models the collaborator raising an exception; `.ok`
models a normal return.  Argument order follows the call sites in
`SupervisorAgent.process` (disease, location, hospital_type, top_n for
the hospital finder; disease, hospital_type, hospital_days,
opd_visits_per_year for the cost estimator). -/
structure Collaborators where
  get_disease_info : String → Except String HealthResult
  find_hospitals : Option String → Option String → String → Int → Except String HospitalResult
  estimate_total_healthcare_cost : String → String → Int → Int → Except String CostResult

/-! ## SupervisorAgent.process (lines 38-121) -/

/-- One numbered hospital block of the hospital section (supervisor
lines 78-84), for index `i` (enumerate starts at 1). -/
def renderHospital (i : Nat) (h : Hospital) : String :=
  "\n" ++ toString i ++ ". " ++ h.name ++ " (" ++ h.city ++ ", " ++ h.state ++ ")" ++
  "\n   Type: " ++ h.htype ++
  "\n   Specialties: " ++ h.specialties ++
  "\n   Beds: " ++ toString h.beds ++
  "\n   Contact: " ++ h.contact ++ "\n"

/-- The hospital section text on success (supervisor lines 76-85):
header then the numbered blocks appended in collaborator order. -/
def hospitalText (hs : List Hospital) : String :=
  (List.enumFrom 1 hs).foldl (fun acc ih => acc ++ renderHospital ih.1 ih.2)
    "🏥 HOSPITAL RECOMMENDATIONS\n"

/-- The cost section text on success (supervisor lines 99-105), line
order exactly as in the f-string: annual medicines, annual OPD visits,
hospitalization, estimated annual total. -/
def costText (s : CostSummary) : String :=
  "💰 COST ESTIMATES\n" ++
  "- Annual Medicines: ₹" ++ s.annual_medicines ++ "\n" ++
  "- Annual OPD Visits: ₹" ++ s.annual_opd_visits ++ "\n" ++
  "- Hospitalization (approx): ₹" ++ s.hospitalization ++ "\n" ++
  "- Estimated Annual Total: ₹" ++ s.estimated_annual_total ++ "\n"

/-- The fixed help message returned when no intent fired (supervisor
lines 112-118). -/
def helpMessage : String :=
  "I could not understand what you need.\n\n" ++
  "You can ask things like:\n" ++
  "- \x27What are symptoms of diabetes?\x27\n" ++
  "- \x27Find hospitals in Delhi for heart treatment\x27\n" ++
  "- \x27How much does diabetes treatment cost per year?\x27"

/-- The health branch of `process` (supervisor lines 59-65), run when
`wants_health`; returns the list of parts it appends.  An exception
from the collaborator propagates. -/
def healthPart (c : Collaborators) (query disease : String) :
    Except String (List String) :=
  let disease_for_info := if disease = "general" then query else disease
  match c.get_disease_info disease_for_info with
  | .error e => .error e
  | .ok info =>
    if info.status = "success" then
      .ok ["📋 HEALTH INFORMATION\n" ++ info.information]
    else
      .ok ["📋 HEALTH INFORMATION\nSorry, could not fetch disease information."]

/-- The hospital branch of `process` (supervisor lines 68-87). -/
def hospitalPart (c : Collaborators) (disease : String)
    (location : Option String) : Except String (List String) :=
  match c.find_hospitals (if disease = "general" then none else some disease)
      location "Private" 5 with
  | .error e => .error e
  | .ok r =>
    if r.status = "success" then
      .ok [hospitalText r.hospitals]
    else
      .ok ["🏥 HOSPITAL RECOMMENDATIONS\nNo hospitals found for given criteria."]

/-- The cost branch of `process` (supervisor lines 90-108). -/
def costPart (c : Collaborators) (disease : String) :
    Except String (List String) :=
  match c.estimate_total_healthcare_cost
      (if disease ≠ "general" then disease else "diabetes") "private" 3 12 with
  | .error e => .error e
  | .ok r =>
    if r.status = "success" then
      .ok [costText r.summary]
    else
      .ok ["💰 COST ESTIMATES\nCould not calculate healthcare cost."]

/-- `SupervisorAgent.process` (lines 38-121).  The query is stripped;
empty queries get the fixed guidance string; the three intents are
classified independently; extraction runs once; the fired branches run
in the fixed order health, hospital, cost (an exception from an earlier
branch collaborator is the one that propagates, as in Python); if no
intent fired the fixed help message is returned; otherwise the parts
are joined with a blank line. -/
def process (c : Collaborators) (query0 : String) : Except String String :=
  let query := trimStr query0
  if query = "" then .ok "Please enter a valid question."
  else
    let wants_health := needs_health_info query
    let wants_hospital := needs_hospital query
    let wants_cost := needs_cost query
    let disease := extract_disease_from_query query
    let location := extract_location_from_query query
    match (if wants_health then healthPart c query disease else .ok []),
          (if wants_hospital then hospitalPart c disease location else .ok []),
          (if wants_cost then costPart c disease else .ok []) with
    | .error e, _, _ => .error e
    | .ok _, .error e, _ => .error e
    | .ok _, .ok _, .error e => .error e
    | .ok p1, .ok p2, .ok p3 =>
      if !(wants_health || wants_hospital || wants_cost) then .ok helpMessage
      else .ok (String.intercalate "\n\n" (p1 ++ p2 ++ p3))

/-! ## Substring positions (used to state line-ordering facts) -/

/-- Index of the first occurrence of `needle` in a character list,
`none` when it does not occur. -/
def posOf (needle : List Char) : List Char → Option Nat
  | [] => if leadsList needle [] then some 0 else none
  | h :: hs =>
    if leadsList needle (h :: hs) then some 0
    else (posOf needle hs).map (· + 1)

/-- Index of the first occurrence of `needle` in `haystack`. -/
def strPos (needle haystack : String) : Option Nat :=
  posOf needle.data haystack.data

/-! ## CostEstimatorAgent (src/agents/cost_estimator.py)

Python float arithmetic is embedded as exact rational arithmetic and
`round(x, 2)` as exact half-to-even rounding to two decimals; the
claims settled below depend only on control flow and the `status`
field, never on a rounded numeric value. -/

/-- `CostEstimatorAgent.room_costs` (lines 14-19): hospital type →
(per_day, opd). -/
def room_costs : List (String × Int × Int) :=
  [("district", 350, 94), ("tertiary", 600, 304),
   ("private", 6000, 1251), ("metro_private", 8000, 1500)]

/-- `self.room_costs.get(t, {}).get("per_day", 1000)` (line 54). -/
def roomPerDay (t : String) : Int :=
  match room_costs.find? (fun kv => kv.1 == t) with
  | some kv => kv.2.1
  | none => 1000

/-- `self.room_costs.get(t, {}).get("opd", 300)` (line 144). -/
def roomOpd (t : String) : Int :=
  match room_costs.find? (fun kv => kv.1 == t) with
  | some kv => kv.2.2
  | none => 300

/-- `CostEstimatorAgent.medicine_costs` (lines 22-45): disease →
monthly medicine cost entries, in dict insertion order. -/
def medicine_costs : List (String × List (String × Int)) :=
  [("diabetes",
    [("insulin", 1500), ("metformin", 200), ("test_strips", 800),
     ("monthly_total", 2500)]),
   ("hypertension",
    [("ace_inhibitor", 300), ("beta_blocker", 250), ("monthly_total", 550)]),
   ("asthma",
    [("inhaler", 600), ("preventive", 400), ("monthly_total", 1000)]),
   ("heart disease",
    [("statins", 500), ("aspirin", 50), ("beta_blocker", 300),
     ("monthly_total", 850)])]

/-- Python `round(x, 2)`: half-to-even rounding to two decimal places,
taken over exact rationals. -/
def round2 (x : Rat) : Rat :=
  let y := x * 100
  let f : Int := Int.floor y
  let frac := y - (f : Rat)
  if frac < 1 / 2 then (f : Rat) / 100
  else if 1 / 2 < frac then ((f + 1 : Int) : Rat) / 100
  else (if f % 2 = 0 then (f : Rat) else ((f + 1 : Int) : Rat)) / 100

/-- Breakdown dict of `calculate_hospitalization_cost` (lines 69-76). -/
structure HospBreakdown where
  room_charges : Rat
  medicines : Rat
  tests_diagnostics : Rat
  doctor_fees : Rat
  other_expenses : Rat
  procedure_cost : Int
  deriving DecidableEq

/-- Return dict of `calculate_hospitalization_cost` (lines 65-79). -/
structure HospCostResult where
  status : String
  hospital_type : String
  days_admitted : Int
  breakdown : HospBreakdown
  total_cost : Rat
  average_per_day : Rat
  deriving DecidableEq

/-- `CostEstimatorAgent.calculate_hospitalization_cost` (lines 47-79). -/
def calculate_hospitalization_cost (hospital_type : String) (days : Int)
    (procedure_cost : Int) : HospCostResult :=
  let cost_per_day : Rat := (roomPerDay hospital_type : Int)
  let room_total := cost_per_day * ((max days 1 : Int) : Rat)
  let medicines := room_total * (24 / 100)
  let tests := room_total * (10 / 100)
  let doctor_fees := room_total * (17 / 100)
  let other := room_total * (39 / 100)
  let total := room_total + medicines + tests + doctor_fees + other
      + (procedure_cost : Rat)
  { status := "success"
    hospital_type := hospital_type
    days_admitted := days
    breakdown :=
      { room_charges := round2 room_total
        medicines := round2 medicines
        tests_diagnostics := round2 tests
        doctor_fees := round2 doctor_fees
        other_expenses := round2 other
        procedure_cost := procedure_cost }
    total_cost := round2 total
    average_per_day := round2 (total / ((max days 1 : Int) : Rat)) }

/-- Return value of `calculate_annual_medicine_cost` (lines 81-110):
either the success dict (modelled by its totals) or the not_found
dict. -/
inductive MedResult where
  | success (disease : String) (monthly_total annual_total : Int)
  | not_found (disease : String)
  deriving DecidableEq

/-- `CostEstimatorAgent.calculate_annual_medicine_cost` (lines 81-110):
unknown disease yields the not_found dict; otherwise monthly_total (or
the sum of the other entries when that key is absent) and its annual
value. -/
def calculate_annual_medicine_cost (disease : String) : MedResult :=
  let key := lowerStr disease
  match medicine_costs.find? (fun kv => kv.1 == key) with
  | none => .not_found disease
  | some kv =>
    let monthly_total :=
      match (kv.2.find? (fun e => e.1 == "monthly_total")).map (fun e => e.2) with
      | some v => v
      | none => ((kv.2.filter (fun e => ¬ e.1 == "monthly_total")).map
          (fun e => e.2)).sum
    .success disease monthly_total (monthly_total * 12)

/-- Summary sub-dict of `estimate_total_healthcare_cost`
(lines 152-157). -/
structure EstimateSummary where
  hospitalization : Rat
  annual_medicines : Rat
  annual_opd_visits : Rat
  estimated_annual_total : Rat
  deriving DecidableEq

/-- Details sub-dict of `estimate_total_healthcare_cost`
(lines 158-163); `none` models the empty `hosp_details` dict used when
no hospitalization was computed. -/
structure EstimateDetails where
  hospitalization_details : Option HospCostResult
  medicine_details : MedResult
  opd_cost_per_visit : Int
  opd_visits_per_year : Int
  deriving DecidableEq

/-- Return dict of `estimate_total_healthcare_cost` (lines 149-164). -/
structure EstimateResult where
  status : String
  disease : String
  summary : EstimateSummary
  details : EstimateDetails
  deriving DecidableEq

/-- `CostEstimatorAgent.estimate_total_healthcare_cost`
(lines 112-164): hospitalization cost only when `hospital_days > 0`, a
medicine result that contributes zero when the disease is unknown, OPD
cost from the room table (default 300), single unconditional success
return. -/
def estimate_total_healthcare_cost (disease hospital_type : String)
    (hospital_days opd_visits_per_year : Int) : EstimateResult :=
  let hosp_details : Option HospCostResult :=
    if hospital_days > 0 then
      some (calculate_hospitalization_cost hospital_type hospital_days 0)
    else none
  let hosp_cost : Rat :=
    match hosp_details with
    | some r => r.total_cost
    | none => 0
  let med_result := calculate_annual_medicine_cost disease
  let annual_med_cost : Rat :=
    match med_result with
    | .success _ _ annual_total => (annual_total : Rat)
    | .not_found _ => 0
  let opd_per_visit := roomOpd hospital_type
  let annual_opd_cost : Rat := (opd_per_visit : Rat) * (opd_visits_per_year : Rat)
  let total := hosp_cost + annual_med_cost + annual_opd_cost
  { status := "success"
    disease := disease
    summary :=
      { hospitalization := round2 hosp_cost
        annual_medicines := round2 annual_med_cost
        annual_opd_visits := round2 annual_opd_cost
        estimated_annual_total := round2 total }
    details :=
      { hospitalization_details := hosp_details
        medicine_details := med_result
        opd_cost_per_visit := opd_per_visit
        opd_visits_per_year := opd_visits_per_year } }

/-- Display form of a summary value as interpolated by the supervisor
f-string (exact Python float formatting is abstracted; no claim depends
on the rendered digits). -/
def ratToStr (x : Rat) : String := toString x

/-- The cost summary as the supervisor sees it when the collaborator is
the in-repo estimator. -/
def renderedSummary (s : EstimateSummary) : CostSummary :=
  { annual_medicines := ratToStr s.annual_medicines
    annual_opd_visits := ratToStr s.annual_opd_visits
    hospitalization := ratToStr s.hospitalization
    estimated_annual_total := ratToStr s.estimated_annual_total }

/-- The in-repo cost collaborator wired into the supervisor interface:
it never raises, and its status is whatever
`estimate_total_healthcare_cost` reports. -/
def realCostCollab : String → String → Int → Int → Except String CostResult :=
  fun d t a b =>
    let r := estimate_total_healthcare_cost d t a b
    .ok ⟨r.status, renderedSummary r.summary⟩

/-- A collaborator triple that always succeeds with fixed payloads,
used to instantiate universally quantified theorems at a concrete
point. -/
def stubCollab : Collaborators where
  get_disease_info := fun _ => .ok ⟨"success", "INFO"⟩
  find_hospitals := fun _ _ _ _ => .ok ⟨"success", []⟩
  estimate_total_healthcare_cost := fun _ _ _ _ =>
    .ok ⟨"success", ⟨"1", "2", "3", "4"⟩⟩

/-! ## Helper lemmas -/

/-- The first element satisfying `p` is the head of the filtered list:
sequential first-match search respects list definition order. -/
theorem find?_eq_filter_head? {α : Type} (p : α → Bool) :
    ∀ l : List α, l.find? p = (l.filter p).head? := by
  intro l
  induction l with
  | nil => rfl
  | cons a t ih =>
    by_cases h : p a
    · rw [List.find?_cons_of_pos _ h, List.filter_cons_of_pos h]
      rfl
    · rw [List.find?_cons_of_neg _ h, List.filter_cons_of_neg h]
      exact ih

/-- A collaborator whose health calls all return normally makes
`healthPart` return normally. -/
theorem healthPart_ok (c : Collaborators) (query disease : String)
    (hh : ∀ d, ∃ r, c.get_disease_info d = .ok r) :
    ∃ p, healthPart c query disease = .ok p := by
  obtain ⟨r, hr⟩ := hh (if disease = "general" then query else disease)
  by_cases hs : r.status = "success" <;> simp [healthPart, hr, hs]

/-- A collaborator whose hospital calls all return normally makes
`hospitalPart` return normally. -/
theorem hospitalPart_ok (c : Collaborators) (disease : String)
    (location : Option String)
    (hf : ∀ a b t n, ∃ r, c.find_hospitals a b t n = .ok r) :
    ∃ p, hospitalPart c disease location = .ok p := by
  obtain ⟨r, hr⟩ := hf (if disease = "general" then none else some disease)
    location "Private" 5
  by_cases hs : r.status = "success" <;> simp [hospitalPart, hr, hs]

/-- A collaborator whose cost calls all return normally makes
`costPart` return normally. -/
theorem costPart_ok (c : Collaborators) (disease : String)
    (hc : ∀ a b t n, ∃ r, c.estimate_total_healthcare_cost a b t n = .ok r) :
    ∃ p, costPart c disease = .ok p := by
  obtain ⟨r, hr⟩ := hc (if disease = "general" then "diabetes" else disease)
    "private" 3 12
  by_cases hs : r.status = "success" <;> simp [costPart, hr, hs]

end HealthCost

namespace HealthCost

/-- C4: a query that is empty after stripping whitespace makes
`process` return exactly the fixed guidance string, whatever the three
collaborators are (so no adapter, extraction, or classification can
influence the result). -/
theorem c4_empty_query_guidance (c : Collaborators) (q : String)
    (h : trimStr q = "") :
    process c q = .ok "Please enter a valid question." := by
  simp only [process, h]
  exact if_pos trivial

/-- C4 witness: the empty query and a whitespace-only query at the stub
collaborators. -/
theorem c4_empty_query_guidance_witness :
    process stubCollab "" = .ok "Please enter a valid question." ∧
    process stubCollab " \t\n " = .ok "Please enter a valid question." :=
  ⟨c4_empty_query_guidance stubCollab "" (by decide),
   c4_empty_query_guidance stubCollab " \t\n " (by decide)⟩

/-- C5: a query that is non-empty after trimming and whose lower-cased
text contains no keyword from any of the three keyword sets makes
`process` return exactly the fixed help message, whatever the
collaborators are (so no adapter is consulted). -/
theorem c5_no_intent_help (c : Collaborators) (q : String)
    (hne : ¬ trimStr q = "")
    (h1 : ∀ k ∈ healthKeywords, strIn k (lowerStr (trimStr q)) = false)
    (h2 : ∀ k ∈ hospitalKeywords, strIn k (lowerStr (trimStr q)) = false)
    (h3 : ∀ k ∈ costKeywords, strIn k (lowerStr (trimStr q)) = false) :
    process c q = .ok helpMessage := by
  have w1 : needs_health_info (trimStr q) = false := by
    simp only [needs_health_info]
    rw [List.any_eq_false]
    intro k hk
    simp [h1 k hk]
  have w2 : needs_hospital (trimStr q) = false := by
    simp only [needs_hospital]
    rw [List.any_eq_false]
    intro k hk
    simp [h2 k hk]
  have w3 : needs_cost (trimStr q) = false := by
    simp only [needs_cost]
    rw [List.any_eq_false]
    intro k hk
    simp [h3 k hk]
  simp [process, hne, w1, w2, w3]

/-- C5 witness: a keyword-free query at the stub collaborators. -/
theorem c5_no_intent_help_witness :
    process stubCollab "hello there" = .ok helpMessage :=
  c5_no_intent_help stubCollab "hello there" (by decide) (by decide)
    (by decide) (by decide)

/-- C6: the extracted disease is always the sentinel "general" or one
of the fixed disease labels; it equals the first label (in the fixed
list order) contained in the lower-cased query, with "general" when the
filtered list is empty; in particular a query containing no label
yields "general". -/
theorem c6_disease_sentinel_or_label (q : String) :
    (extract_disease_from_query q = "general" ∨
      extract_disease_from_query q ∈ diseases) ∧
    extract_disease_from_query q =
      ((diseases.filter (fun d => strIn d (lowerStr q))).head?).getD "general" ∧
    ((∀ d ∈ diseases, strIn d (lowerStr q) = false) →
      extract_disease_from_query q = "general") := by
  have key : extract_disease_from_query q =
      ((diseases.filter (fun d => strIn d (lowerStr q))).head?).getD "general" := by
    simp only [extract_disease_from_query]
    rw [find?_eq_filter_head?]
    cases (diseases.filter (fun d => strIn d (lowerStr q))).head? <;> rfl
  refine ⟨?_, key, ?_⟩
  · cases h : diseases.find? (fun d => strIn d (lowerStr q)) with
    | none => left; simp [extract_disease_from_query, h]
    | some d =>
      right
      have hm := List.mem_of_find?_eq_some h
      simpa [extract_disease_from_query, h] using hm
  · intro hnone
    have hfil : diseases.filter (fun d => strIn d (lowerStr q)) = [] := by
      rw [List.filter_eq_nil_iff]
      intro d hd
      simp [hnone d hd]
    rw [key, hfil]
    rfl

/-- C6 witness: a query matching no disease label yields the
sentinel. -/
theorem c6_disease_sentinel_or_label_witness :
    extract_disease_from_query "hello there" = "general" :=
  (c6_disease_sentinel_or_label "hello there").2.2 (by decide)

/-- C7: the extracted location is the canonical city of the first
matching alias in table definition order (head of the order-preserving
filter of the table); the multi-alias query "bombay ncr" resolves to
"Mumbai" (canonical city of "bombay", the first-listed matching alias,
even though "ncr" → "Delhi" also matches); a query containing no alias
yields `none`. -/
theorem c7_location_first_table_alias (q : String) :
    extract_location_from_query q =
      ((cities.filter (fun kv => strIn kv.1 (lowerStr q))).head?).map
        (fun kv => kv.2) ∧
    extract_location_from_query "bombay ncr" = some "Mumbai" ∧
    ((∀ kv ∈ cities, strIn kv.1 (lowerStr q) = false) →
      extract_location_from_query q = none) := by
  have key : extract_location_from_query q =
      ((cities.filter (fun kv => strIn kv.1 (lowerStr q))).head?).map
        (fun kv => kv.2) := by
    simp only [extract_location_from_query]
    rw [find?_eq_filter_head?]
    cases (cities.filter (fun kv => strIn kv.1 (lowerStr q))).head? <;> rfl
  refine ⟨key, by decide, ?_⟩
  · intro hnone
    have hfil : cities.filter (fun kv => strIn kv.1 (lowerStr q)) = [] := by
      rw [List.filter_eq_nil_iff]
      intro kv hkv
      simp [hnone kv hkv]
    rw [key, hfil]
    rfl

/-- C7 witness: a query containing no alias yields an absent
location. -/
theorem c7_location_first_table_alias_witness :
    extract_location_from_query "hello there" = none :=
  (c7_location_first_table_alias "hello there").2.2 (by decide)

/-- C9: `process` is a deterministic function of the query and of the
collaborator results — two collaborator triples that agree pointwise
give identical composed output on every query. -/
theorem c9_process_deterministic (c1 c2 : Collaborators) (q : String)
    (h1 : ∀ d, c1.get_disease_info d = c2.get_disease_info d)
    (h2 : ∀ a b t n, c1.find_hospitals a b t n = c2.find_hospitals a b t n)
    (h3 : ∀ a b t n, c1.estimate_total_healthcare_cost a b t n =
        c2.estimate_total_healthcare_cost a b t n) :
    process c1 q = process c2 q := by
  obtain ⟨f1, g1, k1⟩ := c1
  obtain ⟨f2, g2, k2⟩ := c2
  have e1 : f1 = f2 := funext h1
  have e2 : g1 = g2 :=
    funext fun a => funext fun b => funext fun t => funext fun n => h2 a b t n
  have e3 : k1 = k2 :=
    funext fun a => funext fun b => funext fun t => funext fun n => h3 a b t n
  subst e1
  subst e2
  subst e3
  rfl

/-- C9 witness: two calls with the same query and the same collaborator
results produce the same string. -/
theorem c9_process_deterministic_witness :
    process stubCollab "diabetes cost" = process stubCollab "diabetes cost" :=
  c9_process_deterministic stubCollab stubCollab "diabetes cost"
    (fun _ => rfl) (fun _ _ _ _ => rfl) (fun _ _ _ _ => rfl)

/-- C10: `estimate_total_healthcare_cost` reports status "success" on
every input (an unknown disease only zeroes the medicine contribution),
so when the cost collaborator of the supervisor is the in-repo estimator the
cost branch always takes the success path and the fixed
"Could not calculate healthcare cost." text is unreachable. -/
theorem c10_estimator_always_success :
    (∀ (d t : String) (days opd : Int),
      (estimate_total_healthcare_cost d t days opd).status = "success") ∧
    (∀ (hc : String → Except String HealthResult)
      (ff : Option String → Option String → String → Int →
        Except String HospitalResult) (d : String),
      costPart ⟨hc, ff, realCostCollab⟩ d =
        .ok [costText (renderedSummary (estimate_total_healthcare_cost
          (if d ≠ "general" then d else "diabetes") "private" 3 12).summary)]) := by
  constructor
  · intro d t days opd
    rfl
  · intro hc ff d
    rfl

/-- C8: when all three intents fire and the collaborators succeed, the
composed response is the health section, then the hospital section,
then the cost section, joined with the blank-line separator. -/
theorem c8_fixed_section_order (c : Collaborators) (q i : String)
    (hs : List Hospital) (s : CostSummary)
    (hq : ¬ trimStr q = "")
    (w1 : needs_health_info (trimStr q) = true)
    (w2 : needs_hospital (trimStr q) = true)
    (w3 : needs_cost (trimStr q) = true)
    (hh : ∀ d, c.get_disease_info d = .ok ⟨"success", i⟩)
    (hf : ∀ a b t n, c.find_hospitals a b t n = .ok ⟨"success", hs⟩)
    (hc : ∀ a b t n, c.estimate_total_healthcare_cost a b t n =
        .ok ⟨"success", s⟩) :
    process c q = .ok (String.intercalate "\n\n"
      ["📋 HEALTH INFORMATION\n" ++ i, hospitalText hs, costText s]) := by
  simp [process, healthPart, hospitalPart, costPart, hq, w1, w2, w3, hh, hf, hc]

/-- C8 witness: a concrete query firing all three intents, at constant
success collaborators. -/
theorem c8_fixed_section_order_witness :
    process stubCollab "health hospital cost" = .ok (String.intercalate "\n\n"
      ["📋 HEALTH INFORMATION\nINFO", hospitalText [],
       costText ⟨"1", "2", "3", "4"⟩]) :=
  c8_fixed_section_order stubCollab "health hospital cost" "INFO" []
    ⟨"1", "2", "3", "4"⟩ (by decide) (by decide) (by decide) (by decide)
    (fun _ => rfl) (fun _ _ _ _ => rfl) (fun _ _ _ _ => rfl)

/-- C1 counterexample: `process` has no exception handling of its own,
so a Hospital-Lookup collaborator that raises makes the exception
escape `process` on a query requesting health+hospital+cost, even
though the health and cost collaborators succeed — the claimed
adapter-level isolation of exceptions does not hold. -/
theorem c1_exception_escapes_counterexample :
    process
      { get_disease_info := fun _ => .ok ⟨"success", "INFO"⟩
        find_hospitals := fun _ _ _ _ => .error "boom"
        estimate_total_healthcare_cost := fun _ _ _ _ =>
          .ok ⟨"success", ⟨"1", "2", "3", "4"⟩⟩ }
      "health hospital cost" = .error "boom" := rfl

/-- C1 amended: when every collaborator call returns normally
(signalling failure only through its status field), `process` always
returns a string; and a non-success status from the Hospital-Lookup
collaborator does not abort the other two adapters — a query firing all
three intents still gets the health and cost sections plus the fixed
hospital-failure text.  An exception inside a collaborator call,
however, propagates out of `process` uncaught. -/
theorem c1_amended_status_failures_isolated :
    (∀ (c : Collaborators) (q : String),
      (∀ d, ∃ r, c.get_disease_info d = .ok r) →
      (∀ a b t n, ∃ r, c.find_hospitals a b t n = .ok r) →
      (∀ a b t n, ∃ r, c.estimate_total_healthcare_cost a b t n = .ok r) →
      ∃ s, process c q = .ok s) ∧
    (∀ (i : String) (s : CostSummary),
      process
        { get_disease_info := fun _ => .ok ⟨"success", i⟩
          find_hospitals := fun _ _ _ _ => .ok ⟨"not_found", []⟩
          estimate_total_healthcare_cost := fun _ _ _ _ => .ok ⟨"success", s⟩ }
        "health hospital cost"
      = .ok (String.intercalate "\n\n"
          ["📋 HEALTH INFORMATION\n" ++ i,
           "🏥 HOSPITAL RECOMMENDATIONS\nNo hospitals found for given criteria.",
           costText s])) := by
  constructor
  · intro c q hh hf hc
    by_cases hq : trimStr q = ""
    · exact ⟨"Please enter a valid question.", by
        simp only [process, hq]
        exact if_pos trivial⟩
    · obtain ⟨ph, Eh⟩ := healthPart_ok c (trimStr q)
        (extract_disease_from_query (trimStr q)) hh
      obtain ⟨pf, Ef⟩ := hospitalPart_ok c
        (extract_disease_from_query (trimStr q))
        (extract_location_from_query (trimStr q)) hf
      obtain ⟨pc, Ec⟩ := costPart_ok c (extract_disease_from_query (trimStr q)) hc
      by_cases v1 : needs_health_info (trimStr q) <;>
        by_cases v2 : needs_hospital (trimStr q) <;>
          by_cases v3 : needs_cost (trimStr q) <;>
            simp [process, hq, v1, v2, v3, Eh, Ef, Ec]
  · intro i s
    rfl

/-- C1 amended witness: total collaborators at a concrete all-intent
query. -/
theorem c1_amended_status_failures_isolated_witness :
    ∃ s, process stubCollab "health hospital cost" = .ok s :=
  c1_amended_status_failures_isolated.1 stubCollab "health hospital cost"
    (fun _ => ⟨_, rfl⟩) (fun _ _ _ _ => ⟨_, rfl⟩) (fun _ _ _ _ => ⟨_, rfl⟩)

/-- C2 counterexample: the query "Find hospitals in Delhi for heart
disease treatment" contains the health keyword "disease" (inside
"heart disease"), so `_needs_health_info` classifies it true, not
false, and the composed response carries a health section in addition
to the hospital section (shown at success-stub collaborators), not the
hospital section only. -/
theorem c2_wants_health_counterexample :
    needs_health_info "Find hospitals in Delhi for heart disease treatment"
      = true ∧
    process stubCollab "Find hospitals in Delhi for heart disease treatment" =
      .ok (String.intercalate "\n\n"
        ["📋 HEALTH INFORMATION\nINFO", hospitalText []]) :=
  ⟨by decide, rfl⟩

/-- C2 amended: on "Find hospitals in Delhi for heart disease
treatment" the classifier sets wants_hospital=true, wants_cost=false
and also wants_health=true (the health keyword "disease" occurs inside
"heart disease"); extraction yields disease "heart disease" and
location "Delhi"; with succeeding collaborators the composed response
is the health section followed by the hospital section. -/
theorem c2_amended_delhi_query (c : Collaborators) (i : String)
    (hs : List Hospital)
    (hh : ∀ d, c.get_disease_info d = .ok ⟨"success", i⟩)
    (hf : ∀ a b t n, c.find_hospitals a b t n = .ok ⟨"success", hs⟩) :
    needs_hospital "Find hospitals in Delhi for heart disease treatment"
      = true ∧
    needs_health_info "Find hospitals in Delhi for heart disease treatment"
      = true ∧
    needs_cost "Find hospitals in Delhi for heart disease treatment" = false ∧
    extract_disease_from_query
      "Find hospitals in Delhi for heart disease treatment" = "heart disease" ∧
    extract_location_from_query
      "Find hospitals in Delhi for heart disease treatment" = some "Delhi" ∧
    process c "Find hospitals in Delhi for heart disease treatment" =
      .ok (String.intercalate "\n\n"
        ["📋 HEALTH INFORMATION\n" ++ i, hospitalText hs]) := by
  have e0 : trimStr "Find hospitals in Delhi for heart disease treatment" =
      "Find hospitals in Delhi for heart disease treatment" := by decide
  have e1 : needs_health_info
      "Find hospitals in Delhi for heart disease treatment" = true := by decide
  have e2 : needs_hospital
      "Find hospitals in Delhi for heart disease treatment" = true := by decide
  have e3 : needs_cost
      "Find hospitals in Delhi for heart disease treatment" = false := by decide
  have e4 : extract_disease_from_query
      "Find hospitals in Delhi for heart disease treatment" =
      "heart disease" := by decide
  have e5 : extract_location_from_query
      "Find hospitals in Delhi for heart disease treatment" =
      some "Delhi" := by decide
  refine ⟨e2, e1, e3, e4, e5, ?_⟩
  simp [process, healthPart, hospitalPart, e0, e1, e2, e3, e4, e5, hh, hf]

/-- C2 amended witness: the stub collaborators at the Delhi query. -/
theorem c2_amended_delhi_query_witness :
    process stubCollab "Find hospitals in Delhi for heart disease treatment" =
      .ok (String.intercalate "\n\n"
        ["📋 HEALTH INFORMATION\nINFO", hospitalText []]) :=
  (c2_amended_delhi_query stubCollab "INFO" [] (fun _ => rfl)
    (fun _ _ _ _ => rfl)).2.2.2.2.2

/-- C3 counterexample: in the cost section the supervisor actually
emits, the annual-medicines line (first character index 17, right after
the header) precedes the hospitalization line (index 64), so the
claimed order hospitalization → medicines → OPD → total is not the one
produced. -/
theorem c3_line_order_counterexample :
    costText ⟨"1", "2", "3", "4"⟩ =
      "💰 COST ESTIMATES\n- Annual Medicines: ₹1\n- Annual OPD Visits: ₹2\n- Hospitalization (approx): ₹3\n- Estimated Annual Total: ₹4\n" ∧
    strPos "- Annual Medicines" (costText ⟨"1", "2", "3", "4"⟩) = some 17 ∧
    strPos "- Hospitalization" (costText ⟨"1", "2", "3", "4"⟩) = some 64 ∧
    17 < 64 :=
  ⟨by decide, by decide, by decide, by decide⟩

/-- C3 amended: when the cost intent fires and the Cost-Estimate
collaborator returns status success, the cost section body is the four
fixed currency-labeled lines with values taken from the collaborator
summary, in the order the source emits them: annual medicines, annual
OPD visits, hospitalization, estimated annual total (see `costText`). -/
theorem c3_amended_cost_section_lines (c : Collaborators) (d : String)
    (r : CostResult)
    (hc : ∀ a b t n, c.estimate_total_healthcare_cost a b t n = .ok r)
    (hs : r.status = "success") :
    costPart c d = .ok [costText r.summary] := by
  simp [costPart, hc, hs]

/-- C3 amended witness: the stub cost collaborator. -/
theorem c3_amended_cost_section_lines_witness :
    costPart stubCollab "flu" = .ok [costText ⟨"1", "2", "3", "4"⟩] :=
  c3_amended_cost_section_lines stubCollab "flu"
    ⟨"success", ⟨"1", "2", "3", "4"⟩⟩ (fun _ _ _ _ => rfl) rfl

end HealthCost
